import Mathlib

/-!
Shallow embedding of the `wew` browser-engine binding crate.

The definitions below are translated from the Rust sources:

* `src/src/runtime.rs` — the split crate: `Runtime::new`, the process-wide
  `RUNTIME_RUNNING` flag, and `Drop for Runtime`;
* `src/src/lib.rs` — the monolithic crate root: `Runtime::new` with the
  macOS loop-strategy substitution, and `Runtime::is_subprocess`;
* `src/src/sync.rs` — the `Park` / `UnPark` single-slot box,
  `AsyncWebViewHandler::on_state_change`, and `async_create_webview`;
* `src/src/webview.rs` — `WebView::<WindowlessRenderWebView>::mouse` and the
  mutex-guarded `cef_mouse_event_t` cursor cache;
* `src/webview/src/lib.rs` — `execute_subprocess` and `is_subprocess`.

External effects (the native engine entry points, the spawned run-loop
thread, the waker of the task system) are represented by explicit data:
each embedded operation returns the native calls it performs together with
the state it leaves behind.
-/

/-- Error taxonomy of the binding. `FailedToCreateRuntime` and
`FailedToCreateWebView` are declared in `src/src/lib.rs` (lines 88-92);
`RuntimeAlreadyExists` is the third variant used by `src/src/runtime.rs`
(line 232) of the split crate. -/
inductive Error where
  | FailedToCreateRuntime
  | FailedToCreateWebView
  | RuntimeAlreadyExists
  deriving DecidableEq, Repr

/-- How the native run entry point is issued after a successful creation:
inline on the calling thread, or on a freshly spawned background thread. -/
inductive ExecuteMode where
  | inlineRun
  | spawnedThread
  deriving DecidableEq, Repr

/-! ## Split crate: `src/src/runtime.rs` -/

/-- Runtime configuration of the split crate, `RuntimeAttributes`
(src/src/runtime.rs lines 28-78). The `CString` path fields are modelled as
optional strings; the custom scheme field is irrelevant to the claims and
carried as a plain flag for whether one was supplied. -/
structure RuntimeAttributes where
  custom_scheme : Bool := false
  windowless_rendering_enabled : Bool := false
  cache_dir_path : Option String := none
  browser_subprocess_path : Option String := none
  framework_dir_path : Option String := none
  main_bundle_path : Option String := none
  external_message_pump : Bool := false
  multi_threaded_message_loop : Bool := false
  deriving DecidableEq, Repr

/-- The native configuration record `sys::RuntimeSettings` exactly as
`Runtime::new` fills it (src/src/runtime.rs lines 247-259). -/
structure RuntimeSettings where
  cache_dir_path : Option String
  browser_subprocess_path : Option String
  windowless_rendering_enabled : Bool
  main_bundle_path : Option String
  framework_dir_path : Option String
  external_message_pump : Bool
  multi_threaded_message_loop : Bool
  custom_scheme : Bool
  deriving DecidableEq, Repr

/-- Observable outcome of one `Runtime::new` call of the split crate:
the returned result, the settings passed to `sys::create_runtime` (or
`none` when the construction failed fast before reaching the native entry
point), how `sys::execute_runtime` was issued (or `none` when it was never
reached), and the value of the `RUNTIME_RUNNING` flag afterwards. -/
structure RuntimeNewOutcome where
  result : Except Error Unit
  createRuntimeCalledWith : Option RuntimeSettings
  executeMode : Option ExecuteMode
  flagAfter : Bool
  deriving Repr

/-- Translation of the attribute snapshot into `sys::RuntimeSettings`
(src/src/runtime.rs lines 247-259). -/
def runtimeSettingsOf (attr : RuntimeAttributes) : RuntimeSettings :=
  { cache_dir_path := attr.cache_dir_path
    browser_subprocess_path := attr.browser_subprocess_path
    windowless_rendering_enabled := attr.windowless_rendering_enabled
    main_bundle_path := attr.main_bundle_path
    framework_dir_path := attr.framework_dir_path
    external_message_pump := attr.external_message_pump
    multi_threaded_message_loop := attr.multi_threaded_message_loop
    custom_scheme := attr.custom_scheme }

/-- `Runtime::new` of the split crate (src/src/runtime.rs lines 228-303).
`runtimeRunning` is the value of the `RUNTIME_RUNNING` atomic observed at
entry; `nativeCreateReturnsNull` tells whether `sys::create_runtime`
returns a null pointer. The code first checks the flag and fails fast with
`RuntimeAlreadyExists`; otherwise it stores `true` into the flag, builds
the settings, calls the native create entry point, and on a null result
returns `FailedToCreateRuntime` without touching the flag again. On
success it issues `sys::execute_runtime` — on a spawned thread when
`multi_threaded_message_loop` is set, inline otherwise. -/
def runtimeNew (runtimeRunning : Bool) (attr : RuntimeAttributes)
    (nativeCreateReturnsNull : Bool) : RuntimeNewOutcome :=
  if runtimeRunning then
    { result := Except.error Error.RuntimeAlreadyExists
      createRuntimeCalledWith := none
      executeMode := none
      flagAfter := runtimeRunning }
  else
    let settings := runtimeSettingsOf attr
    if nativeCreateReturnsNull then
      { result := Except.error Error.FailedToCreateRuntime
        createRuntimeCalledWith := some settings
        executeMode := none
        flagAfter := true }
    else
      { result := Except.ok ()
        createRuntimeCalledWith := some settings
        executeMode :=
          some (if attr.multi_threaded_message_loop then ExecuteMode.spawnedThread
                else ExecuteMode.inlineRun)
        flagAfter := true }

/-- The native teardown calls issued by `Drop for Runtime`
(src/src/runtime.rs lines 344-361), in order. -/
inductive RuntimeDropCall where
  | quitMessageLoop
  | closeRuntime
  | freeHandlerBox
  deriving DecidableEq, Repr

/-- Call sequence of `Drop for Runtime` (src/src/runtime.rs lines 344-361):
quit the message loop when a background thread owns it, close the native
runtime, free the boxed handler. -/
def runtimeDropCalls (multiThreadedMessageLoop : Bool) : List RuntimeDropCall :=
  (if multiThreadedMessageLoop then [RuntimeDropCall.quitMessageLoop] else []) ++
    [RuntimeDropCall.closeRuntime, RuntimeDropCall.freeHandlerBox]

/-- Value of `RUNTIME_RUNNING` after `Drop for Runtime` runs
(src/src/runtime.rs line 359 stores `false`). -/
def runtimeDropFlagAfter : Bool := false

/-! ## Monolithic crate root: `src/src/lib.rs` -/

/-- Runtime configuration of the monolithic crate, `RuntimeAttributes`
(src/src/lib.rs lines 104-136). It has no loop-strategy field: the loop
strategy of the native configuration is decided inside `Runtime::new`. -/
structure MonoRuntimeAttributes where
  windowless_rendering_enabled : Bool := false
  cache_dir_path : Option String := none
  browser_subprocess_path : Option String := none
  scheme_dir_path : Option String := none
  framework_dir_path : Option String := none
  main_bundle_path : Option String := none
  deriving DecidableEq, Repr

/-- The native configuration record `sys::AppOptions` exactly as the
monolithic `Runtime::new` fills it (src/src/lib.rs lines 263-275). -/
structure AppOptions where
  cache_dir_path : Option String
  scheme_dir_path : Option String
  browser_subprocess_path : Option String
  windowless_rendering_enabled : Bool
  main_bundle_path : Option String
  framework_dir_path : Option String
  external_message_pump : Bool
  multi_threaded_message_loop : Bool
  deriving DecidableEq, Repr

/-- The `sys::AppOptions` value built by the monolithic `Runtime::new`
(src/src/lib.rs lines 263-275): `external_message_pump` is exactly
`cfg!(target_os = "macos")` and `multi_threaded_message_loop` its
negation, regardless of the attributes. -/
def monoAppOptions (targetOsMacos : Bool) (attr : MonoRuntimeAttributes) : AppOptions :=
  { cache_dir_path := attr.cache_dir_path
    scheme_dir_path := attr.scheme_dir_path
    browser_subprocess_path := attr.browser_subprocess_path
    windowless_rendering_enabled := attr.windowless_rendering_enabled
    main_bundle_path := attr.main_bundle_path
    framework_dir_path := attr.framework_dir_path
    external_message_pump := targetOsMacos
    multi_threaded_message_loop := !targetOsMacos }

/-- Observable outcome of one monolithic `Runtime::new` call: the result,
the options handed to `sys::create_app`, and how `sys::execute_app` was
issued (`none` when never reached). -/
structure MonoRuntimeNewOutcome where
  result : Except Error Unit
  createAppCalledWith : AppOptions
  executeMode : Option ExecuteMode
  deriving Repr

/-- Monolithic `Runtime::new` (src/src/lib.rs lines 259-320). The options
are built first and always reach `sys::create_app`; a null result is
`FailedToCreateRuntime`; on success `sys::execute_app` runs inline on
macOS and on a spawned thread elsewhere (lines 295-314). -/
def monoRuntimeNew (targetOsMacos : Bool) (attr : MonoRuntimeAttributes)
    (nativeCreateReturnsNull : Bool) : MonoRuntimeNewOutcome :=
  let options := monoAppOptions targetOsMacos attr
  if nativeCreateReturnsNull then
    { result := Except.error Error.FailedToCreateRuntime
      createAppCalledWith := options
      executeMode := none }
  else
    { result := Except.ok ()
      createAppCalledWith := options
      executeMode :=
        some (if targetOsMacos then ExecuteMode.inlineRun else ExecuteMode.spawnedThread) }

/-! ## Park / UnPark and the async adaptation layer: `src/src/sync.rs` -/

/-- Shared state of one `Park` / `UnPark` pair (src/src/sync.rs lines
26-76): the single result slot `output`, the `runing` flag (spelling as in
the source), plus two pieces of waker bookkeeping — whether a waiter has
registered interest and how many times the waker has been woken. -/
structure ParkBox (T : Type) where
  output : Option T
  runing : Bool
  wakerRegistered : Bool
  wakes : Nat
  deriving DecidableEq, Repr

/-- `Park::new` (src/src/sync.rs lines 52-69): empty slot, `runing` true,
no waiter registered, no wake delivered yet. -/
def parkNew (T : Type) : ParkBox T :=
  { output := none, runing := true, wakerRegistered := false, wakes := 0 }

/-- `UnPark::unpark` (src/src/sync.rs lines 32-37) followed by the drop of
the consumed `UnPark` (lines 39-43): replace the slot content with the
result, wake the waker, then the drop stores `runing = false`. -/
def unparkDeposit {T : Type} (box : ParkBox T) (v : T) : ParkBox T :=
  { box with output := some v, wakes := box.wakes + 1, runing := false }

/-- `Drop for UnPark` when the producer is dropped without depositing a
value (src/src/sync.rs lines 39-43): it only stores `runing = false`; it
performs no wake. -/
def unparkDrop {T : Type} (box : ParkBox T) : ParkBox T :=
  { box with runing := false }

/-- Result of polling a future: ready with a value, or pending. -/
inductive PollResult (T : Type) where
  | ready (value : Option T)
  | pending
  deriving DecidableEq, Repr

/-- `Future::poll` for `Park` (src/src/sync.rs lines 78-93): a deposited
result is taken out of the slot and returned; otherwise, when `runing` is
already false the poll resolves to `Ready(None)`; otherwise the waker is
registered and the poll returns `Pending`. -/
def parkPoll {T : Type} (box : ParkBox T) : PollResult T × ParkBox T :=
  match box.output with
  | some v => (PollResult.ready (some v), { box with output := none })
  | none =>
    if box.runing then
      (PollResult.pending, { box with wakerRegistered := true })
    else
      (PollResult.ready none, box)

/-- Modelled from the spec: the surface load-state enumeration. The Rust
type `WebViewState` (alias `PageState`) comes from generated native
bindings that are not part of the sources; the spec describes the page
lifecycle as loading-started, loaded, load-error "and possibly others",
and the code under verification (src/src/sync.rs line 254) distinguishes
only `Loaded` and `LoadError` from all remaining states, so one
representative non-terminal state suffices. -/
inductive WebViewState where
  | LoadingStarted
  | Loaded
  | LoadError
  deriving DecidableEq, Repr

/-- A terminal load state in the sense of src/src/sync.rs line 254. -/
def isTerminalState (state : WebViewState) : Bool :=
  state == WebViewState.LoadError || state == WebViewState.Loaded

/-- State of one `AsyncWebViewHandler` (src/src/sync.rs lines 225-228):
whether the `Mutex<Option<UnPark<bool>>>` still holds the producer, and
the shared box of the `Park` / `UnPark` pair. -/
structure AsyncWebViewHandlerState where
  unparkSlot : Bool
  box : ParkBox Bool
  deriving DecidableEq, Repr

/-- `AsyncWebViewHandler::on_state_change` (src/src/sync.rs lines
253-268): when the state is `LoadError` or `Loaded` and the producer is
still held, take it and unpark with `state == Loaded`. -/
def onStateChange (st : AsyncWebViewHandlerState) (state : WebViewState) :
    AsyncWebViewHandlerState :=
  if (state == WebViewState.LoadError || state == WebViewState.Loaded) && st.unparkSlot then
    { unparkSlot := false, box := unparkDeposit st.box (state == WebViewState.Loaded) }
  else
    st

/-- Deliver a sequence of state-change callbacks to the handler. -/
def runStateChanges (st : AsyncWebViewHandlerState) (events : List WebViewState) :
    AsyncWebViewHandlerState :=
  events.foldl onStateChange st

/-- Handler state right after `async_create_webview` builds the
`AsyncWebViewHandler` (src/src/sync.rs lines 321-330): fresh box, producer
held. -/
def asyncWebViewHandlerInit : AsyncWebViewHandlerState :=
  { unparkSlot := true, box := parkNew Bool }

/-- Dropping the handler (the producer side) drops the still-held
`UnPark`, if any, which runs `Drop for UnPark`. -/
def asyncHandlerDrop (st : AsyncWebViewHandlerState) : AsyncWebViewHandlerState :=
  if st.unparkSlot then { unparkSlot := false, box := unparkDrop st.box } else st

/-- The await tail of `async_create_webview` (src/src/sync.rs lines
332-340): `Some(true)` from the park resolves to `Ok(webview)`, and both
`Some(false)` and `None` fall through to `Err(FailedToCreateWebView)`. A
pending poll (`none` here) means the task is still suspended. -/
def awaitParkOutcome (box : ParkBox Bool) : Option (Except Error Unit) :=
  match (parkPoll box).1 with
  | PollResult.ready (some true) => some (Except.ok ())
  | PollResult.ready (some false) => some (Except.error Error.FailedToCreateWebView)
  | PollResult.ready none => some (Except.error Error.FailedToCreateWebView)
  | PollResult.pending => none

/-- `async_create_webview` (src/src/sync.rs lines 315-344) as a function
of the observable environment: whether `sys::create_webview` returns null,
the sequence of state-change callbacks delivered before the final poll,
and whether the producer side is dropped before that poll. The value is
the resolution of the returned task: `none` while still suspended. -/
def async_create_webview (nativeCreateReturnsNull : Bool)
    (events : List WebViewState) (producerDropped : Bool) :
    Option (Except Error Unit) :=
  if nativeCreateReturnsNull then
    some (Except.error Error.FailedToCreateWebView)
  else
    let st := runStateChanges asyncWebViewHandlerInit events
    let st2 := if producerDropped then asyncHandlerDrop st else st
    awaitParkOutcome st2.box

/-! ## Windowless mouse input: `src/src/webview.rs` -/

/-- A position of the input event model (src/src/webview.rs lines 19-23). -/
structure Position where
  x : Int
  y : Int
  deriving DecidableEq, Repr

/-- Key state (src/src/webview.rs lines 29-33). -/
inductive KeyState where
  | Down
  | Up
  deriving DecidableEq, Repr

/-- Mouse button (src/src/webview.rs lines 38-43). -/
inductive MouseButton where
  | Left
  | Middle
  | Right
  deriving DecidableEq, Repr

/-- Mouse action (src/src/webview.rs lines 57-68): a click with an
optional position, a move, or a wheel scroll. -/
inductive MouseAction where
  | Click (button : MouseButton) (state : KeyState) (pos : Option Position)
  | Move (pos : Position)
  | Wheel (pos : Position)
  deriving DecidableEq, Repr

/-- The mutex-guarded `cef_mouse_event_t` cursor cache of a windowless
`WebView` (src/src/webview.rs line 310): coordinates plus modifier bits. -/
structure MouseEventCache where
  x : Int
  y : Int
  modifiers : Nat
  deriving DecidableEq, Repr

/-- The cache as `WebView::new` initialises it (src/src/webview.rs line
370): `std::mem::zeroed()`, all fields zero. -/
def mouseEventZeroed : MouseEventCache :=
  { x := 0, y := 0, modifiers := 0 }

/-- The native mouse entry points with the arguments they receive
(src/src/webview.rs lines 428-454): move and click carry the (possibly
updated) cached event; wheel carries the cached event unchanged plus the
wheel coordinates as deltas. -/
inductive NativeMouseCall where
  | mouseMove (event : MouseEventCache)
  | mouseWheel (event : MouseEventCache) (deltaX deltaY : Int)
  | mouseClick (event : MouseEventCache) (button : MouseButton) (pressed : Bool)
  deriving DecidableEq, Repr

/-- `WebView::<WindowlessRenderWebView>::mouse` (src/src/webview.rs lines
424-457): `Move` writes the position into the cache and dispatches a move
with it; `Wheel` dispatches the untouched cache with the position as
deltas; `Click` writes the position into the cache only when one is given
and dispatches a click with the cached event. Returns the cache after the
call and the dispatched native call. -/
def webviewMouse (cache : MouseEventCache) (action : MouseAction) :
    MouseEventCache × NativeMouseCall :=
  match action with
  | MouseAction.Move pos =>
    let event := { cache with x := pos.x, y := pos.y }
    (event, NativeMouseCall.mouseMove event)
  | MouseAction.Wheel pos =>
    (cache, NativeMouseCall.mouseWheel cache pos.x pos.y)
  | MouseAction.Click button state pos =>
    let event :=
      match pos with
      | some p => { cache with x := p.x, y := p.y }
      | none => cache
    (event, NativeMouseCall.mouseClick event button (state == KeyState.Down))

/-! ## Subprocess entry points: `src/webview/src/lib.rs` -/

/-- Observable outcome of `execute_subprocess`: either the guard panics
before anything is marshalled, or the native subprocess executor is
invoked with the marshalled arguments. -/
inductive SubprocessOutcome where
  | panicked (message : String)
  | nativeExecutorInvoked
  deriving DecidableEq, Repr

/-- `execute_subprocess` (src/webview/src/lib.rs lines 49-57):
`tokioRuntimeActive` is whether `tokio::runtime::Handle::try_current()`
succeeds on the calling thread; if so the function panics with the
diagnostic below, otherwise it marshals the arguments and hands them to
`webview_sys::execute_sub_process`. -/
def execute_subprocess (tokioRuntimeActive : Bool) : SubprocessOutcome :=
  if tokioRuntimeActive then
    SubprocessOutcome.panicked "webview sub process does not work in tokio runtime!"
  else
    SubprocessOutcome.nativeExecutorInvoked

/-- Rust `str::contains` as used at src/webview/src/lib.rs line 60 and
src/src/lib.rs line 256: substring containment, on the character list. -/
def strContains (haystack pat : String) : Bool :=
  decide (pat.toList <:+: haystack.toList)

/-- `is_subprocess` (src/webview/src/lib.rs lines 59-61, identically
`Runtime::is_subprocess` at src/src/lib.rs lines 255-257), as a function
of the argument list of the process:
`args().find(|v| v.contains("--type")).is_some()`. -/
def is_subprocess (procArgs : List String) : Bool :=
  (procArgs.find? fun it => strContains it "--type").isSome

/-! ## Theorems -/

theorem onStateChange_of_taken (st : AsyncWebViewHandlerState)
    (h : st.unparkSlot = false) (state : WebViewState) :
    onStateChange st state = st := by
  simp [onStateChange, h]

theorem runStateChanges_of_taken (st : AsyncWebViewHandlerState)
    (h : st.unparkSlot = false) :
    ∀ events : List WebViewState, runStateChanges st events = st := by
  intro events
  induction events with
  | nil => rfl
  | cons a t ih =>
    show runStateChanges (onStateChange st a) t = st
    rw [onStateChange_of_taken st h a]
    exact ih

/-- The handler state after any sequence of state-change callbacks is
decided by the first terminal state of the sequence: no terminal state
leaves the fresh state untouched; a first terminal state `s` deposits
`s == Loaded`, wakes once, and consumes the producer, after which the
remaining callbacks change nothing. -/
theorem runStateChanges_init_eq (events : List WebViewState) :
    runStateChanges asyncWebViewHandlerInit events =
      match events.find? isTerminalState with
      | none => asyncWebViewHandlerInit
      | some s =>
        { unparkSlot := false
          box := { output := some (s == WebViewState.Loaded), runing := false,
                   wakerRegistered := false, wakes := 1 } } := by
  induction events with
  | nil => rfl
  | cons a t ih =>
    by_cases h : isTerminalState a = true
    · have h2 : (a == WebViewState.LoadError || a == WebViewState.Loaded) = true := h
      have hfind : (a :: t).find? isTerminalState = some a := List.find?_cons_of_pos _ h
      have hstep : onStateChange asyncWebViewHandlerInit a =
          { unparkSlot := false
            box := { output := some (a == WebViewState.Loaded), runing := false,
                     wakerRegistered := false, wakes := 1 } } := by
        simp [onStateChange, asyncWebViewHandlerInit, unparkDeposit, parkNew, h2]
      rw [hfind]
      show runStateChanges (onStateChange asyncWebViewHandlerInit a) t = _
      rw [hstep]
      exact runStateChanges_of_taken _ rfl t
    · have h' : isTerminalState a = false := by
        cases hb : isTerminalState a
        · rfl
        · exact absurd hb h
      have h2 : (a == WebViewState.LoadError || a == WebViewState.Loaded) = false := h'
      have hfind : (a :: t).find? isTerminalState = t.find? isTerminalState :=
        List.find?_cons_of_neg _ (by simp [h'])
      have hstep : onStateChange asyncWebViewHandlerInit a = asyncWebViewHandlerInit := by
        simp [onStateChange, h2]
      rw [hfind]
      show runStateChanges (onStateChange asyncWebViewHandlerInit a) t = _
      rw [hstep]
      exact ih

/-- C1. Single-runtime invariant: a construction that observes the
process-wide running flag set returns `RuntimeAlreadyExists` without
reaching the native create entry point; a first successful construction
returns ok and leaves the flag set; after the drop of the runtime clears
the flag, a new construction attempt (whose native creation succeeds)
returns ok again. -/
theorem runtime_single_instance_invariant
    (attr attr2 attr3 : RuntimeAttributes) (nullSecond : Bool) :
    (runtimeNew false attr false).result = Except.ok ()
    ∧ (runtimeNew false attr false).flagAfter = true
    ∧ (runtimeNew (runtimeNew false attr false).flagAfter attr2 nullSecond).result
        = Except.error Error.RuntimeAlreadyExists
    ∧ (runtimeNew (runtimeNew false attr false).flagAfter attr2 nullSecond).createRuntimeCalledWith
        = none
    ∧ runtimeDropFlagAfter = false
    ∧ (runtimeNew runtimeDropFlagAfter attr3 false).result = Except.ok () := by
  cases nullSecond <;> simp [runtimeNew, runtimeDropFlagAfter]

/-- C2. The code sets the running flag before calling the native create
entry point and does not clear it when that call returns null: a failed
construction returns `FailedToCreateRuntime` but leaves the flag set, so
the next construction attempt is rejected with `RuntimeAlreadyExists` —
contrary to the claim that the flag is not left set. -/
theorem runtime_failed_create_leaves_flag_set (attr attr2 : RuntimeAttributes) :
    (runtimeNew false attr true).result = Except.error Error.FailedToCreateRuntime
    ∧ (runtimeNew false attr true).createRuntimeCalledWith = some (runtimeSettingsOf attr)
    ∧ (runtimeNew false attr true).flagAfter = true
    ∧ (runtimeNew (runtimeNew false attr true).flagAfter attr2 false).result
        = Except.error Error.RuntimeAlreadyExists := by
  simp [runtimeNew]

/-- C3. On macOS the monolithic `Runtime::new` always passes a native
configuration with `external_message_pump = true` and
`multi_threaded_message_loop = false`, for every attribute snapshot, and
on success issues the native run call inline rather than on a spawned
thread. -/
theorem macos_loop_strategy_substitution
    (attr : MonoRuntimeAttributes) (nativeNull : Bool) :
    (monoRuntimeNew true attr nativeNull).createAppCalledWith.external_message_pump = true
    ∧ (monoRuntimeNew true attr nativeNull).createAppCalledWith.multi_threaded_message_loop = false
    ∧ (monoRuntimeNew true attr false).executeMode = some ExecuteMode.inlineRun := by
  cases nativeNull <;> simp [monoRuntimeNew, monoAppOptions]

/-- C4. For a webview whose native creation succeeds,
`async_create_webview` stays suspended until the first terminal load
state: it resolves to ok exactly when that first terminal state is
`Loaded`, to `FailedToCreateWebView` when it is `LoadError`, and — once
the producer side is dropped — to `FailedToCreateWebView` when no
terminal state was deposited; the waker is woken at most once over any
sequence of state callbacks, so the task never resolves twice. -/
theorem async_create_webview_resolves_once (events : List WebViewState) :
    (async_create_webview false events false =
      match events.find? isTerminalState with
      | some WebViewState.Loaded => some (Except.ok ())
      | some WebViewState.LoadError => some (Except.error Error.FailedToCreateWebView)
      | some WebViewState.LoadingStarted => some (Except.error Error.FailedToCreateWebView)
      | none => none)
    ∧ (async_create_webview false events true =
      match events.find? isTerminalState with
      | some WebViewState.Loaded => some (Except.ok ())
      | _ => some (Except.error Error.FailedToCreateWebView))
    ∧ (runStateChanges asyncWebViewHandlerInit events).box.wakes ≤ 1 := by
  have hrun := runStateChanges_init_eq events
  refine ⟨?_, ?_, ?_⟩
  · have hdef : async_create_webview false events false
        = awaitParkOutcome (runStateChanges asyncWebViewHandlerInit events).box := rfl
    rw [hdef, hrun]
    cases hE : events.find? isTerminalState with
    | none => rfl
    | some s => cases s <;> rfl
  · have hdef : async_create_webview false events true
        = awaitParkOutcome (asyncHandlerDrop (runStateChanges asyncWebViewHandlerInit events)).box :=
      rfl
    rw [hdef, hrun]
    cases hE : events.find? isTerminalState with
    | none => rfl
    | some s => cases s <;> rfl
  · rw [hrun]
    cases hE : events.find? isTerminalState with
    | none => exact Nat.zero_le 1
    | some s => exact Nat.le_refl 1

/-- C5. The producer drop without a deposited value does not wake the
registered waiter: after a first poll registers interest, dropping the
`UnPark` leaves the wake count at zero (a later poll would return
`Ready(None)`, and a deposit would have woken once) — contrary to the
claim that the drop wakes the waiter. -/
theorem unpark_drop_does_not_wake_registered_waiter :
    (parkPoll (parkNew Bool)).1 = PollResult.pending
    ∧ (parkPoll (parkNew Bool)).2.wakerRegistered = true
    ∧ (unparkDrop (parkPoll (parkNew Bool)).2).wakes = 0
    ∧ (parkPoll (unparkDrop (parkPoll (parkNew Bool)).2)).1 = PollResult.ready none
    ∧ (unparkDeposit (parkPoll (parkNew Bool)).2 true).wakes = 1 := by
  decide

/-- C6. Mouse click position fallback: for every starting cache, after
`Move { x := 10, y := 20 }` a positionless `Click(Left, Down, none)`
dispatches a native click carrying the coordinates 10 and 20. -/
theorem mouse_click_position_fallback (cache : MouseEventCache) :
    (webviewMouse (webviewMouse cache (MouseAction.Move { x := 10, y := 20 })).1
        (MouseAction.Click MouseButton.Left KeyState.Down none)).2
      = NativeMouseCall.mouseClick { x := 10, y := 20, modifiers := cache.modifiers }
          MouseButton.Left true := by
  rfl

/-- C7. Cursor-cache frame condition: only `Move` and `Click` with an
explicit position write the cache; `Wheel` and positionless `Click` leave
it unchanged, and `Wheel` passes its coordinates as scroll deltas next to
the untouched cached event. -/
theorem mouse_cursor_cache_frame_condition (cache : MouseEventCache)
    (p : Position) (b : MouseButton) (s : KeyState) :
    (webviewMouse cache (MouseAction.Move p)).1 = { cache with x := p.x, y := p.y }
    ∧ (webviewMouse cache (MouseAction.Click b s (some p))).1 = { cache with x := p.x, y := p.y }
    ∧ (webviewMouse cache (MouseAction.Wheel p)).1 = cache
    ∧ (webviewMouse cache (MouseAction.Click b s none)).1 = cache
    ∧ (webviewMouse cache (MouseAction.Wheel p)).2 = NativeMouseCall.mouseWheel cache p.x p.y := by
  exact ⟨rfl, rfl, rfl, rfl, rfl⟩

/-- C8. The subprocess executor panics with a clear diagnostic when a
tokio runtime is active on the calling thread, and the native subprocess
executor is invoked exactly when no such runtime is active. -/
theorem execute_subprocess_fatal_in_tokio :
    execute_subprocess true
      = SubprocessOutcome.panicked "webview sub process does not work in tokio runtime!"
    ∧ ∀ tokioRuntimeActive : Bool,
        (execute_subprocess tokioRuntimeActive = SubprocessOutcome.nativeExecutorInvoked
          ↔ tokioRuntimeActive = false) := by
  refine ⟨rfl, ?_⟩
  intro b
  cases b <;> simp [execute_subprocess]

/-- C9. Process role detection: `is_subprocess` returns true exactly when
at least one process argument contains the substring of the type marker
flag. -/
theorem is_subprocess_iff_marker (procArgs : List String) :
    is_subprocess procArgs = true
      ↔ ∃ a ∈ procArgs, "--type".toList <:+: a.toList := by
  simp [is_subprocess, strContains, List.find?_isSome]

/-- C10. The cursor cache starts zeroed, so a positionless click issued
before any move or positioned click dispatches a native click carrying
the coordinates 0 and 0. -/
theorem mouse_click_before_any_position_is_zero (b : MouseButton) (s : KeyState) :
    mouseEventZeroed = { x := 0, y := 0, modifiers := 0 }
    ∧ (webviewMouse mouseEventZeroed (MouseAction.Click b s none)).2
        = NativeMouseCall.mouseClick { x := 0, y := 0, modifiers := 0 } b (s == KeyState.Down) := by
  exact ⟨rfl, rfl⟩
